import Mathlib

/-!
Shallow embedding of the esp32-canbox-nissan gateway (Nissan Juke F15 CAN bus
to head-unit canbox firmware) for checking its natural-language specification.

Machine integers are modelled as Nat / Int with explicit reductions mod 2^w
where the C code narrows or wraps.  C truncating division on signed operands
is Int.tdiv.  The sources embedded here are CanConfigProcessor.cpp,
VehicleConfig.h, GlobalData.cpp, CanCapture.cpp, RadioSend.cpp (the current
Toyota-RAV4 revision for the scheduler, plus the two VW-protocol revisions for
the handbrake status encoders) and SerialCommand.cpp.
-/

namespace Canbox

/-- Reinterpretation of the low 32 bits of a Nat as a twos-complement int32
(the C cast (int32_t)rawUnsigned). -/
def toInt32 (n : Nat) : Int :=
  let m := n % 4294967296
  if m < 2147483648 then (m : Int) else (m : Int) - 4294967296

/-- C conversion of a signed value to int16_t: truncate to 16 bits,
twos complement. -/
def toInt16 (v : Int) : Int :=
  let m := v % 65536
  if m < 32768 then m else m - 65536

/-- C conversion of a signed value to int8_t: truncate to 8 bits,
twos complement. -/
def toInt8 (v : Int) : Int :=
  let m := v % 256
  if m < 128 then m else m - 256

/-- C conversion of a signed value to uint16_t (reduction mod 2^16). -/
def toUInt16n (v : Int) : Nat := (v % 65536).toNat

/-- C conversion of a signed value to uint8_t (reduction mod 2^8). -/
def toUInt8n (v : Int) : Nat := (v % 256).toNat

/-- C conversion of a signed value to uint32_t (reduction mod 2^32). -/
def toUInt32n (v : Int) : Nat := (v % 4294967296).toNat

/-- Wraparound subtraction of two uint32 millis() values, as computed by
the C expression now - last on unsigned long (32-bit on the ESP32-C3). -/
def wsub (a b : Nat) : Nat := (a + (4294967296 - b % 4294967296)) % 4294967296

/-! ## Protocol encoder (RadioSend.cpp) -/

/-- RadioSend.cpp sendCanboxMessage (Toyota RAV4 revision): builds the full
wire frame 0x2E, cmd, len, payload bytes, checksum.  The uint8 accumulator
sum = cmd + len + data[0] + ... wraps mod 256 at every step; the checksum is
sum XOR 0xFF.  The length byte is the payload length (the C caller passes the
payload size as the uint8 len argument). -/
def sendCanboxMessage (cmd : Nat) (data : List Nat) : List Nat :=
  let sum := data.foldl (fun s b => (s + b) % 256) ((cmd + data.length) % 256)
  let checksum := sum ^^^ 255
  0x2E :: cmd :: data.length :: data ++ [checksum]

/-- RadioSend.cpp transmettreVersPoste (first VW revision): identical framing,
with the checksum written as (uint8_t)(0xFF - sum); since sum < 256 the
subtraction never borrows, so no extra mod is needed. -/
def transmettreVersPoste (cmd : Nat) (data : List Nat) : List Nat :=
  let sum := data.foldl (fun s b => (s + b) % 256) ((cmd + data.length) % 256)
  let checksum := 255 - sum
  0x2E :: cmd :: data.length :: data ++ [checksum]

/-! ## Schema data model (VehicleConfig.h) -/

/-- VehicleConfig.h enum ByteOrder. -/
inductive ByteOrder
  | MSB_FIRST
  | LSB_FIRST
deriving DecidableEq, Repr

/-- VehicleConfig.h enum DataType. -/
inductive DataType
  | UINT8
  | INT8
  | UINT16
  | INT16
  | UINT24
  | UINT32
  | BITMASK
deriving DecidableEq, Repr

/-- VehicleConfig.h enum FormulaType. -/
inductive FormulaType
  | NONE
  | SCALE
  | MAP_RANGE
  | BITMASK_EXTRACT
deriving DecidableEq, Repr

/-- VehicleConfig.h enum OutputField (FIELD_COUNT marker omitted). -/
inductive OutputField
  | STEERING
  | ENGINE_RPM
  | VEHICLE_SPEED
  | FUEL_LEVEL
  | ODOMETER
  | VOLTAGE
  | TEMPERATURE
  | DTE
  | FUEL_CONS_INST
  | FUEL_CONS_AVG
  | DOOR_DRIVER
  | DOOR_PASSENGER
  | DOOR_REAR_LEFT
  | DOOR_REAR_RIGHT
  | DOOR_BOOT
  | INDICATOR_LEFT
  | INDICATOR_RIGHT
  | HEADLIGHTS
  | HIGH_BEAM
  | PARKING_LIGHTS
deriving DecidableEq, Repr

/-- VehicleConfig.h struct FieldConfig; the int32_t params[4] array is
modelled as the four named slots p0..p3. -/
structure FieldConfig where
  target : OutputField
  startByte : Nat
  byteCount : Nat
  byteOrder : ByteOrder
  dataType : DataType
  formula : FormulaType
  p0 : Int
  p1 : Int
  p2 : Int
  p3 : Int
deriving DecidableEq, Repr

/-- VehicleConfig.h struct FrameConfig. -/
structure FrameConfig where
  canId : Nat
  fields : List FieldConfig
deriving DecidableEq, Repr

/-- VehicleConfig.h struct VehicleProfile. -/
structure VehicleProfile where
  name : String
  isMock : Bool
  frames : List FrameConfig
deriving DecidableEq, Repr

/-- VehicleConfig.h parseDataType: unknown tokens fall back to UINT8. -/
def parseDataType (s : String) : DataType :=
  if s = "UINT8" then .UINT8
  else if s = "INT8" then .INT8
  else if s = "UINT16" then .UINT16
  else if s = "INT16" then .INT16
  else if s = "UINT24" then .UINT24
  else if s = "UINT32" then .UINT32
  else if s = "BITMASK" then .BITMASK
  else .UINT8

/-- VehicleConfig.h parseByteOrder: anything other than the three
little-endian tokens falls back to MSB_FIRST. -/
def parseByteOrder (s : String) : ByteOrder :=
  if s = "LE" ∨ s = "LITTLE_ENDIAN" ∨ s = "LSB_FIRST" then .LSB_FIRST
  else .MSB_FIRST

/-- VehicleConfig.h parseFormulaType: unknown tokens fall back to NONE. -/
def parseFormulaType (s : String) : FormulaType :=
  if s = "NONE" then .NONE
  else if s = "SCALE" then .SCALE
  else if s = "MAP_RANGE" then .MAP_RANGE
  else if s = "BITMASK_EXTRACT" then .BITMASK_EXTRACT
  else .NONE

/-- VehicleConfig.h parseOutputField: unknown tokens fall back to STEERING. -/
def parseOutputField (s : String) : OutputField :=
  if s = "STEERING" then .STEERING
  else if s = "ENGINE_RPM" then .ENGINE_RPM
  else if s = "VEHICLE_SPEED" then .VEHICLE_SPEED
  else if s = "FUEL_LEVEL" then .FUEL_LEVEL
  else if s = "ODOMETER" then .ODOMETER
  else if s = "VOLTAGE" then .VOLTAGE
  else if s = "TEMPERATURE" then .TEMPERATURE
  else if s = "DTE" then .DTE
  else if s = "FUEL_CONS_INST" then .FUEL_CONS_INST
  else if s = "FUEL_CONS_AVG" then .FUEL_CONS_AVG
  else if s = "DOOR_DRIVER" then .DOOR_DRIVER
  else if s = "DOOR_PASSENGER" then .DOOR_PASSENGER
  else if s = "DOOR_REAR_LEFT" then .DOOR_REAR_LEFT
  else if s = "DOOR_REAR_RIGHT" then .DOOR_REAR_RIGHT
  else if s = "DOOR_BOOT" then .DOOR_BOOT
  else if s = "INDICATOR_LEFT" then .INDICATOR_LEFT
  else if s = "INDICATOR_RIGHT" then .INDICATOR_RIGHT
  else if s = "HEADLIGHTS" then .HEADLIGHTS
  else if s = "HIGH_BEAM" then .HIGH_BEAM
  else if s = "PARKING_LIGHTS" then .PARKING_LIGHTS
  else .STEERING

/-! ## Vehicle state (GlobalData.cpp, current revision) -/

/-- GlobalData.cpp: the shared vehicle-state globals, gathered into one
record.  voltBat and fuelConsoMoy are C floats; they are modelled in Rat
with exact decimal scaling (the binary float rounding of value * 0.1f is
not modelled; no claim depends on it). -/
structure GlobalState where
  currentSteer : Int
  engineRPM : Nat
  vehicleSpeed : Nat
  currentDoors : Nat
  fuelLevel : Nat
  voltBat : Rat
  dteValue : Int
  fuelConsoMoy : Rat
  tempExt : Int
  currentOdo : Nat
  indicatorLeft : Bool
  indicatorRight : Bool
  headlightsOn : Bool
  highBeamOn : Bool
  parkingLightsOn : Bool
  lastLeftIndicatorTime : Nat
  lastRightIndicatorTime : Nat
  fuelConsumptionInst : Nat
  fuelConsumptionAvg : Nat
  averageSpeed : Nat
  elapsedTime : Nat
deriving DecidableEq, Repr

/-- The zero/false initializers of GlobalData.cpp. -/
def GlobalState.init : GlobalState :=
  { currentSteer := 0, engineRPM := 0, vehicleSpeed := 0, currentDoors := 0
    fuelLevel := 0, voltBat := 0, dteValue := 0, fuelConsoMoy := 0
    tempExt := 0, currentOdo := 0, indicatorLeft := false
    indicatorRight := false, headlightsOn := false, highBeamOn := false
    parkingLightsOn := false, lastLeftIndicatorTime := 0
    lastRightIndicatorTime := 0, fuelConsumptionInst := 0
    fuelConsumptionAvg := 0, averageSpeed := 0, elapsedTime := 0 }

/-! ## Configurable frame decoder (CanConfigProcessor.cpp) -/

/-- One inbound CAN frame.  The TWAI driver hands processFrame a frame with
an identifier, a declared data length code, and the fixed 8-byte data
buffer. -/
structure CanFrame where
  identifier : Nat
  dlc : Nat
  data : List Nat
deriving DecidableEq, Repr

/-- The unsigned accumulator loop of CanConfigProcessor::extractRawValue.
MSB_FIRST iterates i = 0 .. byteCount-1, LSB_FIRST iterates
i = byteCount-1 .. 0; each step computes raw = (raw << 8) | data[startByte+i]
on uint32, which on uint8 data equals raw * 256 + byte reduced mod 2^32. -/
def rawAccum (data : List Nat) (f : FieldConfig) : Nat :=
  let idxs := match f.byteOrder with
    | .MSB_FIRST => List.range f.byteCount
    | .LSB_FIRST => (List.range f.byteCount).reverse
  idxs.foldl (fun r i => (r * 256 + data.getD (f.startByte + i) 0) % 4294967296) 0

/-- CanConfigProcessor::extractRawValue: run the accumulator, then narrow
per dataType: INT8 and INT16 sign-extend through the C casts (int8_t) and
(int16_t); every other dataType goes through (int32_t)rawUnsigned. -/
def extractRawValue (data : List Nat) (f : FieldConfig) : Int :=
  let raw := rawAccum data f
  match f.dataType with
  | .INT8 => toInt8 (raw : Int)
  | .INT16 => toInt16 (raw : Int)
  | _ => toInt32 raw

/-- The Arduino map() helper used by the MAP_RANGE formula and by
CanCapture.cpp: (x - inMin) * (outMax - outMin) / (inMax - inMin) + outMin
with C truncating long division. -/
def arduinoMap (x inMin inMax outMin outMax : Int) : Int :=
  ((x - inMin) * (outMax - outMin)).tdiv (inMax - inMin) + outMin

/-- The BITMASK_EXTRACT branch: (rawValue & params[0]) >> params[1] on
int32.  The bitwise AND is taken on the 32-bit patterns; the right shift of
the (possibly negative) int32 result is the arithmetic shift the target
compiler performs, i.e. floor division by 2^shift. -/
def bitmaskExtract (raw mask shift : Int) : Int :=
  (toInt32 (toUInt32n raw &&& toUInt32n mask)).fdiv (2 ^ shift.toNat)

/-- CanConfigProcessor::applyFormula.  Note the runtime substitutions in the
SCALE branch: a zero multiplier and a zero divisor are each replaced by 1. -/
def applyFormula (rawValue : Int) (f : FieldConfig) : Int :=
  match f.formula with
  | .NONE => rawValue
  | .SCALE =>
      let mult := if f.p0 ≠ 0 then f.p0 else 1
      let div := if f.p1 ≠ 0 then f.p1 else 1
      (rawValue * mult).tdiv div + f.p2
  | .MAP_RANGE => arduinoMap rawValue f.p0 f.p1 f.p2 f.p3
  | .BITMASK_EXTRACT => bitmaskExtract rawValue f.p0 f.p1

/-- CanConfigProcessor::writeToGlobalData.  The C narrowing casts on
assignment are kept; the door cases translate currentDoors &= ~mask on
uint8 as an AND with the 8-bit complement of the mask; the indicator cases
store millis() (the now argument) when the value is truthy. -/
def writeToGlobalData (now : Nat) (target : OutputField) (value : Int)
    (s : GlobalState) : GlobalState :=
  match target with
  | .STEERING => { s with currentSteer := toInt16 value }
  | .ENGINE_RPM => { s with engineRPM := toUInt16n value }
  | .VEHICLE_SPEED => { s with vehicleSpeed := toUInt8n value }
  | .FUEL_LEVEL => { s with fuelLevel := toUInt8n value }
  | .ODOMETER => { s with currentOdo := toUInt32n value }
  | .VOLTAGE => { s with voltBat := (value : Rat) / 10 }
  | .TEMPERATURE => { s with tempExt := toInt8 value }
  | .DTE => { s with dteValue := toInt16 value }
  | .FUEL_CONS_INST => { s with fuelConsumptionInst := toUInt16n value }
  | .FUEL_CONS_AVG => { s with fuelConsumptionAvg := toUInt16n value }
  | .DOOR_DRIVER =>
      if value ≠ 0 then { s with currentDoors := s.currentDoors ||| 0x80 }
      else { s with currentDoors := s.currentDoors &&& 0x7F }
  | .DOOR_PASSENGER =>
      if value ≠ 0 then { s with currentDoors := s.currentDoors ||| 0x40 }
      else { s with currentDoors := s.currentDoors &&& 0xBF }
  | .DOOR_REAR_LEFT =>
      if value ≠ 0 then { s with currentDoors := s.currentDoors ||| 0x20 }
      else { s with currentDoors := s.currentDoors &&& 0xDF }
  | .DOOR_REAR_RIGHT =>
      if value ≠ 0 then { s with currentDoors := s.currentDoors ||| 0x10 }
      else { s with currentDoors := s.currentDoors &&& 0xEF }
  | .DOOR_BOOT =>
      if value ≠ 0 then { s with currentDoors := s.currentDoors ||| 0x08 }
      else { s with currentDoors := s.currentDoors &&& 0xF7 }
  | .INDICATOR_LEFT =>
      if value ≠ 0 then { s with lastLeftIndicatorTime := now } else s
  | .INDICATOR_RIGHT =>
      if value ≠ 0 then { s with lastRightIndicatorTime := now } else s
  | .HEADLIGHTS => { s with headlightsOn := value ≠ 0 }
  | .HIGH_BEAM => { s with highBeamOn := value ≠ 0 }
  | .PARKING_LIGHTS => { s with parkingLightsOn := value ≠ 0 }

/-- CanConfigProcessor internal state: the installed profile and the two
counters. -/
structure ProcState where
  profile : VehicleProfile
  framesProcessed : Nat
  unknownFrames : Nat
deriving DecidableEq, Repr

/-- CanConfigProcessor::findFrameConfig: linear search, first match wins. -/
def findFrameConfig (p : VehicleProfile) (canId : Nat) : Option FrameConfig :=
  p.frames.find? (fun fr => fr.canId == canId)

/-- CanConfigProcessor::processFrame: look up the schema for the identifier;
on a miss bump the unknown counter; on a hit bump the processed counter and
run extract / applyFormula / writeToGlobalData for every field of the
schema.  The declared length of the frame is never consulted. -/
def processFrame (now : Nat) (p : ProcState) (g : GlobalState)
    (frame : CanFrame) : ProcState × GlobalState × Bool :=
  match findFrameConfig p.profile frame.identifier with
  | none => ({ p with unknownFrames := p.unknownFrames + 1 }, g, false)
  | some cfg =>
      let g2 := cfg.fields.foldl (fun acc f =>
        writeToGlobalData now f.target
          (applyFormula (extractRawValue frame.data f) f) acc) g
      ({ p with framesProcessed := p.framesProcessed + 1 }, g2, true)

/-- Iterated frame processing, as performed by the main loop handing each
received frame to the processor in turn. -/
def processFrames (now : Nat) (p : ProcState) (g : GlobalState)
    (frames : List CanFrame) : ProcState × GlobalState :=
  frames.foldl (fun acc fr =>
    let r := processFrame now acc.1 acc.2 fr
    (r.1, r.2.1)) (p, g)

/-! ## JSON schema loading (CanConfigProcessor::loadFromJson) -/

/-- One field object of a parsed JSON schema document.  A missing key is
None; loadFromJson substitutes the same defaults the ArduinoJson | operator
supplies. -/
structure JsonField where
  target : Option String
  startByte : Option Nat
  byteCount : Option Nat
  byteOrder : Option String
  dataType : Option String
  formula : Option String
  params : Option (List Int)
deriving DecidableEq, Repr

/-- One frame object of a parsed JSON schema document. -/
structure JsonFrame where
  canId : Nat
  fields : List JsonField
deriving DecidableEq, Repr

/-- A JSON schema document that passed the ArduinoJson parser. -/
structure JsonDoc where
  name : Option String
  isMock : Option Bool
  frames : List JsonFrame
deriving DecidableEq, Repr

/-- The params[4] fill of loadFromJson: memset to zero, then copy at most
the first four entries of the JSON params array. -/
def paramAt (l : List Int) (i : Nat) : Int := (l.take 4).getD i 0

/-- Field construction inside loadFromJson, with the ArduinoJson defaults
for missing keys. -/
def buildField (jf : JsonField) : FieldConfig :=
  let ps := jf.params.getD []
  { target := parseOutputField (jf.target.getD "STEERING")
    startByte := jf.startByte.getD 0
    byteCount := jf.byteCount.getD 1
    byteOrder := parseByteOrder (jf.byteOrder.getD "BE")
    dataType := parseDataType (jf.dataType.getD "UINT8")
    formula := parseFormulaType (jf.formula.getD "NONE")
    p0 := paramAt ps 0, p1 := paramAt ps 1
    p2 := paramAt ps 2, p3 := paramAt ps 3 }

/-- Frame construction inside loadFromJson. -/
def buildFrame (jf : JsonFrame) : FrameConfig :=
  { canId := jf.canId, fields := jf.fields.map buildField }

/-- CanConfigProcessor::loadFromJson.  A file-open or JSON parse failure
(doc = none) returns false before the stored profile is touched.  Once the
document parses, the stored profile is unconditionally replaced by the
freshly built one and the call reports success iff at least one frame was
built — no content validation of divisors, tokens or byte spans occurs. -/
def loadFromJson (doc : Option JsonDoc) (prev : VehicleProfile) :
    VehicleProfile × Bool :=
  match doc with
  | none => (prev, false)
  | some d =>
      let prof : VehicleProfile :=
        { name := d.name.getD "Unknown", isMock := d.isMock.getD false
          frames := d.frames.map buildFrame }
      (prof, prof.frames.length > 0)

/-! ## Profile switch (SerialCommand.cpp canLoad, GlobalData resetVehicleData) -/

/-- Modelled from the spec: resetVehicleData is declared in the GlobalData
header (with the comment "Reset all vehicle data to default values") and is
called by canLoad and the RELOAD command, but its definition is not among
the provided source files.  Following the spec, it restores the zero/false
defaults of GlobalData.cpp. -/
def resetVehicleData (_g : GlobalState) : GlobalState := GlobalState.init

/-- SerialCommand.cpp canLoad (after the file-existence check): attempt
loadFromJson; on success reset the vehicle state to defaults; on failure
leave the state alone.  The profile field reflects whatever loadFromJson
left installed. -/
def canLoad (doc : Option JsonDoc) (p : ProcState) (g : GlobalState) :
    ProcState × GlobalState :=
  let r := loadFromJson doc p.profile
  if r.2 then ({ p with profile := r.1 }, resetVehicleData g)
  else ({ p with profile := r.1 }, g)

/-! ## Hardcoded decoder (CanCapture.cpp, current revision) -/

/-- The calibration values CanCapture.cpp reads from ConfigManager. -/
structure CaptureConfig where
  rpmDivisor : Nat
  tankCapacity : Int
  dteDivisor : Int
deriving DecidableEq, Repr

/-- CanCapture.cpp handleCanCapture: the per-identifier hardcoded decoder.
Byte reads are from the fixed 8-byte frame buffer; (hi << 8) | lo on uint8
bytes is written as hi * 256 + lo.  The 0x60D branch rebuilds currentDoors
from the 24-bit status word while preserving bit 0 (the handbrake flag,
which no 0x60D field sets). -/
def handleCanCapture (cfg : CaptureConfig) (now : Nat) (frame : CanFrame)
    (s : GlobalState) : GlobalState :=
  let d := fun i => frame.data.getD i 0
  if frame.identifier = 0x002 then
    { s with currentSteer := toInt16 (d 1 * 256 + d 2) }
  else if frame.identifier = 0x180 then
    { s with engineRPM := (d 0 * 256 + d 1) % 65536 / cfg.rpmDivisor }
  else if frame.identifier = 0x284 then
    { s with vehicleSpeed := ((d 0 * 256 + d 1) % 65536 / 100) % 256 }
  else if frame.identifier = 0x5C5 then
    { s with
      fuelLevel := toUInt8n (arduinoMap (d 0) 255 0 0 cfg.tankCapacity)
      currentOdo := d 1 * 65536 + d 2 * 256 + d 3 }
  else if frame.identifier = 0x6F6 then
    { s with voltBat := (d 0 : Rat) / 10 }
  else if frame.identifier = 0x551 then
    { s with tempExt := toInt8 ((d 0 : Int) - 40) }
  else if frame.identifier = 0x60D then
    let status := d 0 * 65536 + d 1 * 256 + d 2
    let savedHandbrake := s.currentDoors &&& 0x01
    let doors := savedHandbrake
      ||| (if status &&& 1048576 ≠ 0 then 0x80 else 0)
      ||| (if status &&& 524288 ≠ 0 then 0x40 else 0)
      ||| (if status &&& 2097152 ≠ 0 then 0x20 else 0)
      ||| (if status &&& 4194304 ≠ 0 then 0x10 else 0)
      ||| (if status &&& 8388608 ≠ 0 then 0x08 else 0)
    { s with
      highBeamOn := status &&& 2048 ≠ 0
      headlightsOn := status &&& 131072 ≠ 0
      parkingLightsOn := status &&& 262144 ≠ 0
      lastLeftIndicatorTime :=
        if status &&& 8192 ≠ 0 then now else s.lastLeftIndicatorTime
      lastRightIndicatorTime :=
        if status &&& 16384 ≠ 0 then now else s.lastRightIndicatorTime
      currentDoors := doors }
  else if frame.identifier = 0x54C then
    let rawDte := (d 6 * 256 + d 7) % 65536
    { s with dteValue := toInt16 (((rawDte : Int) * 100).tdiv cfg.dteDivisor) }
  else if frame.identifier = 0x580 then
    { s with
      fuelConsumptionInst := d 2 &&& 0x7F
      fuelConsumptionAvg := d 4 }
  else s

/-! ## Transmit scheduler (RadioSend.cpp, Toyota RAV4 revision) -/

/-- The door branch state of processRadioUpdates: last transmitted door
byte (static init 0xFF) and last emission time. -/
structure DoorSched where
  lastSentDoors : Nat
  lastDoorTime : Nat
deriving DecidableEq, Repr

/-- The static initializers of the door branch: lastSentDoors = 0xFF,
lastDoorTime = 0. -/
def doorSchedInit : DoorSched := { lastSentDoors := 0xFF, lastDoorTime := 0 }

/-- One tick of the door branch (CMD 0x24, on-change with a 250 ms floor):
send iff the candidate byte differs from the last sent byte OR 250 ms have
elapsed; on send, record the byte and the time. -/
def doorTick (now doorStatus : Nat) (st : DoorSched) : DoorSched × Bool :=
  if doorStatus ≠ st.lastSentDoors ∨ 250 ≤ wsub now st.lastDoorTime then
    ({ lastSentDoors := doorStatus, lastDoorTime := now }, true)
  else (st, false)

/-- One tick of the steering branch (CMD 0x29, purely periodic at 200 ms):
send iff 200 ms have elapsed since the last emission. -/
def steeringTick (now last : Nat) : Nat × Bool :=
  if 200 ≤ wsub now last then (now, true) else (last, false)

/-! ## Handbrake status encoders (RadioSend.cpp, VW-protocol revisions) -/

/-- RadioSend.cpp (VW Polo revision): the door/handbrake status byte sent
with DataType 0x41 command 0x01: the five internal door bits move to bits
0-4 and currentDoors bit 0 (handbrake) moves to bit 5. -/
def vwDoorStatusByte (doors : Nat) : Nat :=
  (if doors &&& 0x80 ≠ 0 then 0x01 else 0)
  ||| (if doors &&& 0x40 ≠ 0 then 0x02 else 0)
  ||| (if doors &&& 0x20 ≠ 0 then 0x04 else 0)
  ||| (if doors &&& 0x10 ≠ 0 then 0x08 else 0)
  ||| (if doors &&& 0x08 ≠ 0 then 0x10 else 0)
  ||| (if doors &&& 0x01 ≠ 0 then 0x20 else 0)

/-- RadioSend.cpp (first VW revision): status byte 11 of the dashboard
payload: bit 2 (engine running) always set, bit 0 set from currentDoors
bit 0 (handbrake). -/
def vwDashStatusByte (doors : Nat) : Nat :=
  if doors &&& 0x01 ≠ 0 then 0x04 ||| 0x01 else 0x04

/-! ## Concrete instances used by the claim theorems -/

/-- A 4-byte unsigned MSB-first field over bytes 0-3 (used to exhibit the
int32 narrowing of extractRawValue). -/
def fieldU32 : FieldConfig :=
  { target := .ODOMETER, startByte := 0, byteCount := 4
    byteOrder := .MSB_FIRST, dataType := .UINT32, formula := .NONE
    p0 := 0, p1 := 0, p2 := 0, p3 := 0 }

/-- The RPM schema field of the specification scenario: bytes 0-1,
big-endian UINT16, SCALE(1, 7, 0). -/
def fieldRpm16 : FieldConfig :=
  { target := .ENGINE_RPM, startByte := 0, byteCount := 2
    byteOrder := .MSB_FIRST, dataType := .UINT16, formula := .SCALE
    p0 := 1, p1 := 7, p2 := 0, p3 := 0 }

/-- A SCALE field with multiplier 0, divisor 1, offset 0. -/
def scaleZeroMultField : FieldConfig :=
  { target := .ENGINE_RPM, startByte := 0, byteCount := 2
    byteOrder := .MSB_FIRST, dataType := .UINT16, formula := .SCALE
    p0 := 0, p1 := 1, p2 := 0, p3 := 0 }

/-- The RPM scenario field again under its own name for the SCALE claim. -/
def scaleRpmField : FieldConfig :=
  { target := .ENGINE_RPM, startByte := 0, byteCount := 2
    byteOrder := .MSB_FIRST, dataType := .UINT16, formula := .SCALE
    p0 := 1, p1 := 7, p2 := 0, p3 := 0 }

/-- A SCALE field with multiplier 1 and divisor 0 (zero divisor accepted at
load time, substituted by 1 when applied). -/
def scaleZeroDivField : FieldConfig :=
  { target := .ENGINE_RPM, startByte := 0, byteCount := 2
    byteOrder := .MSB_FIRST, dataType := .UINT16, formula := .SCALE
    p0 := 1, p1 := 0, p2 := 0, p3 := 0 }

/-- A 4-byte span targeting ENGINE_RPM (the field of rpmWideProfile). -/
def fieldRpmWide : FieldConfig :=
  { target := .ENGINE_RPM, startByte := 0, byteCount := 4
    byteOrder := .MSB_FIRST, dataType := .UINT32, formula := .NONE
    p0 := 0, p1 := 0, p2 := 0, p3 := 0 }

/-- A profile with one schema for id 0x180 whose single field spans
bytes 0-3 (wider than the malformed frame below declares). -/
def rpmWideProfile : VehicleProfile :=
  { name := "rpm-wide", isMock := false
    frames := [{ canId := 0x180, fields := [fieldRpmWide] }] }

/-- A frame for id 0x180 whose declared length 2 is shorter than the 4-byte
field span of rpmWideProfile; bytes 2-3 hold leftover buffer contents. -/
def shortRpmFrame : CanFrame :=
  { identifier := 0x180, dlc := 2, data := [0, 0, 0x12, 0x34, 0, 0, 0, 0] }

/-- Processor state with rpmWideProfile installed and counters at zero. -/
def procStateW : ProcState :=
  { profile := rpmWideProfile, framesProcessed := 0, unknownFrames := 0 }

/-- The previously installed profile of the schema-load scenarios. -/
def prevProfile : VehicleProfile :=
  { name := "old", isMock := false
    frames := [{ canId := 0x100, fields := [] }] }

/-- A parsed schema document containing the malformations of the load-time
claim: unknown formula, byte-order, data-type and target tokens, a zero
SCALE divisor, and a byte span beyond the 8-byte frame (start 7, count 4). -/
def badDoc : JsonDoc :=
  { name := some "bad", isMock := some false
    frames := [
      { canId := 0x200, fields := [
        { target := some "FROBNICATE", startByte := some 7, byteCount := some 4
          byteOrder := some "MIDDLE_ENDIAN", dataType := some "FLOAT"
          formula := some "WIBBLE", params := some [1, 0, 0] },
        { target := some "ENGINE_RPM", startByte := some 0, byteCount := some 2
          byteOrder := some "BE", dataType := some "UINT16"
          formula := some "SCALE", params := some [1, 0, 0] }] }] }

/-- A well-formed document whose only field targets VEHICLE_SPEED (used for
the profile-switch scenario: it never targets ENGINE_RPM). -/
def goodDoc : JsonDoc :=
  { name := some "speed-only", isMock := some false
    frames := [{ canId := 0x284, fields := [
      { target := some "VEHICLE_SPEED", startByte := some 0, byteCount := some 2
        byteOrder := some "BE", dataType := some "UINT16"
        formula := some "SCALE", params := some [1, 100, 0] }] }] }

/-- Processor state before the profile switch: a profile that decodes
ENGINE_RPM is installed. -/
def procBefore : ProcState :=
  { profile := { name := "rpm-profile", isMock := false,
                 frames := [{ canId := 0x180, fields := [fieldRpm16] }] },
    framesProcessed := 0, unknownFrames := 0 }

/-- Vehicle state before the profile switch, with a stale decoded RPM. -/
def gBefore : GlobalState := { GlobalState.init with engineRPM := 3000 }

/-- Calibration values used in concrete decoder scenarios (the Juke F15
defaults: RPM divisor 7, tank 45 L, DTE divisor 283). -/
def cfgF15 : CaptureConfig := { rpmDivisor := 7, tankCapacity := 45, dteDivisor := 283 }

/-- A body-control frame (id 0x60D) with the driver-door bit (status bit
20) set. -/
def frame60D : CanFrame :=
  { identifier := 0x60D, dlc := 8, data := [0x10, 0, 0, 0, 0, 0, 0, 0] }

/-- Vehicle state with the handbrake flag (currentDoors bit 0) set. -/
def gHandbrake : GlobalState := { GlobalState.init with currentDoors := 1 }

end Canbox

namespace Canbox

/-! ## Shared lemmas -/

/-- Folding the 8-bit wraparound accumulator from a % 256 gives the plain
sum reduced mod 256. -/
theorem foldl_mod256 (p : List Nat) :
    ∀ a : Nat, p.foldl (fun s b => (s + b) % 256) (a % 256) = (a + p.sum) % 256 := by
  induction p with
  | nil => intro a; simp
  | cons b t ih =>
      intro a
      have h : (a % 256 + b) % 256 = (a + b) % 256 := by omega
      simp only [List.foldl_cons, List.sum_cons]
      rw [h, ih (a + b)]
      omega

set_option maxRecDepth 4000 in
/-- On a byte, subtraction from 0xFF equals XOR with 0xFF. -/
theorem sub255_eq_xor : ∀ s : Nat, s < 256 → 255 - s = s ^^^ 255 := by decide

end Canbox

namespace Canbox

/-- C1: for every message kind code k and payload p of length N, the encoder
emits exactly 0x2E, k, N, p, checksum with
checksum = ((k + N + sum p) mod 256) XOR 0xFF accumulated with 8-bit
wraparound at every step; the legacy transmettreVersPoste emits the same
frame; and for k = 0x29, p = [0x34, 0x12] the frame is
0x2E 0x29 0x02 0x34 0x12 0x8E. -/
theorem wire_frame_layout :
    (∀ (k : Nat) (p : List Nat),
      sendCanboxMessage k p =
        0x2E :: k :: p.length :: p ++ [((k + p.length + p.sum) % 256) ^^^ 255])
    ∧ (∀ (k : Nat) (p : List Nat), transmettreVersPoste k p = sendCanboxMessage k p)
    ∧ sendCanboxMessage 0x29 [0x34, 0x12] = [0x2E, 0x29, 0x02, 0x34, 0x12, 0x8E] := by
  have key : ∀ (k : Nat) (p : List Nat),
      p.foldl (fun s b => (s + b) % 256) ((k + p.length) % 256)
        = (k + p.length + p.sum) % 256 := fun k p => foldl_mod256 p (k + p.length)
  refine ⟨?_, ?_, by decide⟩
  · intro k p
    simp only [sendCanboxMessage, key]
  · intro k p
    simp only [transmettreVersPoste, sendCanboxMessage, key]
    rw [sub255_eq_xor _ (by omega)]

end Canbox

namespace Canbox

/-- getD on a list of bytes is a byte. -/
theorem getD_lt_256 {l : List Nat} (h : ∀ b ∈ l, b < 256) : ∀ k, l.getD k 0 < 256 := by
  induction l with
  | nil => intro k; simp [List.getD]
  | cons x t ih =>
      intro k
      cases k with
      | zero => simpa using h x (List.mem_cons_self x t)
      | succ n =>
          simpa using ih (fun b hb => h b (List.mem_cons_of_mem x hb)) n

/-- The byte bound in getElem? form, as it appears after simp-normal
forms of List.getD. -/
theorem getElem?_getD_lt_256 {l : List Nat} (h : ∀ b ∈ l, b < 256) :
    ∀ k : Nat, l[k]?.getD 0 < 256 := by
  intro k
  have := getD_lt_256 h k
  rwa [List.getD_eq_getElem?_getD] at this

/-- The MSB-first accumulator equals the big-endian weighted byte sum for
spans of one to four bytes (the uint32 truncation never bites). -/
theorem rawAccum_msb (data : List Nat) (f : FieldConfig)
    (hb : ∀ b ∈ data, b < 256) (h1 : 1 ≤ f.byteCount) (h4 : f.byteCount ≤ 4)
    (ho : f.byteOrder = ByteOrder.MSB_FIRST) :
    rawAccum data f =
      ((List.range f.byteCount).map
        (fun i => data.getD (f.startByte + i) 0 * 256 ^ (f.byteCount - 1 - i))).sum := by
  have hB := getElem?_getD_lt_256 hb
  have e0 := hB f.startByte
  have e1 := hB (f.startByte + 1)
  have e2 := hB (f.startByte + 2)
  have e3 := hB (f.startByte + 3)
  rcases (show f.byteCount = 1 ∨ f.byteCount = 2 ∨ f.byteCount = 3 ∨ f.byteCount = 4
    from by omega) with h | h | h | h <;>
    simp only [rawAccum, ho, h] <;>
    norm_num [List.range_succ, List.foldl_append, List.foldl_cons, List.foldl_nil,
      List.map_append, List.map_cons, List.map_nil, List.sum_append, List.sum_cons,
      List.sum_nil] <;>
    omega

/-- The LSB-first accumulator equals the little-endian weighted byte sum
for spans of one to four bytes. -/
theorem rawAccum_lsb (data : List Nat) (f : FieldConfig)
    (hb : ∀ b ∈ data, b < 256) (h1 : 1 ≤ f.byteCount) (h4 : f.byteCount ≤ 4)
    (ho : f.byteOrder = ByteOrder.LSB_FIRST) :
    rawAccum data f =
      ((List.range f.byteCount).map
        (fun i => data.getD (f.startByte + i) 0 * 256 ^ i)).sum := by
  have hB := getElem?_getD_lt_256 hb
  have e0 := hB f.startByte
  have e1 := hB (f.startByte + 1)
  have e2 := hB (f.startByte + 2)
  have e3 := hB (f.startByte + 3)
  rcases (show f.byteCount = 1 ∨ f.byteCount = 2 ∨ f.byteCount = 3 ∨ f.byteCount = 4
    from by omega) with h | h | h | h <;>
    simp only [rawAccum, ho, h] <;>
    norm_num [List.range_succ, List.reverse_append, List.reverse_cons,
      List.foldl_append, List.foldl_cons, List.foldl_nil,
      List.map_append, List.map_cons, List.map_nil, List.sum_append, List.sum_cons,
      List.sum_nil] <;>
    omega

/-- Spans of at most three bytes keep the accumulator below 2^24. -/
theorem rawAccum_lt_of_le3 (data : List Nat) (f : FieldConfig)
    (hb : ∀ b ∈ data, b < 256) (h3 : f.byteCount ≤ 3) :
    rawAccum data f < 16777216 := by
  have hB := getElem?_getD_lt_256 hb
  have e0 := hB f.startByte
  have e1 := hB (f.startByte + 1)
  have e2 := hB (f.startByte + 2)
  rcases (show f.byteCount = 0 ∨ f.byteCount = 1 ∨ f.byteCount = 2 ∨ f.byteCount = 3
    from by omega) with h | h | h | h <;>
    cases ho : f.byteOrder <;>
    simp only [rawAccum, ho, h] <;>
    norm_num [List.range_succ, List.reverse_append, List.reverse_cons,
      List.foldl_append, List.foldl_cons, List.foldl_nil] <;>
    omega

/-- toInt32 is the identity below 2^31. -/
theorem toInt32_of_lt {n : Nat} (h : n < 2147483648) : toInt32 n = (n : Int) := by
  unfold toInt32
  rw [Nat.mod_eq_of_lt (by omega)]
  simp [h]

end Canbox

namespace Canbox

/-- C2 counterexample: a 4-byte unsigned extraction of 0xFFFFFFFF does not
remain unsigned: the C cast (int32_t)rawUnsigned makes extractRawValue
return -1 while the unsigned accumulator holds 4294967295. -/
theorem extract_uint32_wraps_negative :
    extractRawValue [255, 255, 255, 255, 0, 0, 0, 0] fieldU32 = -1
    ∧ rawAccum [255, 255, 255, 255, 0, 0, 0, 0] fieldU32 = 4294967295 :=
  ⟨by decide, by decide⟩

/-- C2 (amended): for spans of 1-4 bytes on byte data, the MSB-first
accumulator is the big-endian weighted sum and the LSB-first accumulator
the little-endian one; dataType INT8 sign-extends the accumulator from
8 bits, INT16 from 16 bits; the unsigned dataTypes return the accumulator
reinterpreted as an int32, which equals the unsigned value whenever the
span is at most 3 bytes (4-byte values of 2^31 and above wrap negative). -/
theorem extract_field_semantics :
    ∀ (data : List Nat) (f : FieldConfig), (∀ b ∈ data, b < 256) →
      1 ≤ f.byteCount → f.byteCount ≤ 4 →
      (f.byteOrder = ByteOrder.MSB_FIRST →
        rawAccum data f =
          ((List.range f.byteCount).map
            (fun i => data.getD (f.startByte + i) 0 * 256 ^ (f.byteCount - 1 - i))).sum)
      ∧ (f.byteOrder = ByteOrder.LSB_FIRST →
        rawAccum data f =
          ((List.range f.byteCount).map
            (fun i => data.getD (f.startByte + i) 0 * 256 ^ i)).sum)
      ∧ (f.dataType = DataType.INT8 →
          extractRawValue data f = toInt8 (rawAccum data f))
      ∧ (f.dataType = DataType.INT16 →
          extractRawValue data f = toInt16 (rawAccum data f))
      ∧ ((f.dataType = DataType.UINT8 ∨ f.dataType = DataType.UINT16 ∨
          f.dataType = DataType.UINT24 ∨ f.dataType = DataType.UINT32 ∨
          f.dataType = DataType.BITMASK) →
          extractRawValue data f = toInt32 (rawAccum data f)
          ∧ (f.byteCount ≤ 3 → extractRawValue data f = (rawAccum data f : Int))) := by
  intro data f hb h1 h4
  refine ⟨rawAccum_msb data f hb h1 h4, rawAccum_lsb data f hb h1 h4, ?_, ?_, ?_⟩
  · intro h; simp [extractRawValue, h]
  · intro h; simp [extractRawValue, h]
  · intro h
    have hval : extractRawValue data f = toInt32 (rawAccum data f) := by
      rcases h with h | h | h | h | h <;> simp [extractRawValue, h]
    refine ⟨hval, fun h3 => ?_⟩
    rw [hval, toInt32_of_lt (lt_trans (rawAccum_lt_of_le3 data f hb h3) (by omega))]

/-- C2 witness: the amended semantics evaluated on the RPM scenario field
(UINT16, bytes 0-1 MSB first) over the payload 44 7E 00 ... -/
theorem extract_field_semantics_witness :
    rawAccum [0x44, 0x7E, 0, 0, 0, 0, 0, 0] fieldRpm16 =
      ((List.range fieldRpm16.byteCount).map
        (fun i => [0x44, 0x7E, 0, 0, 0, 0, 0, 0].getD (fieldRpm16.startByte + i) 0 *
          256 ^ (fieldRpm16.byteCount - 1 - i))).sum :=
  (extract_field_semantics [0x44, 0x7E, 0, 0, 0, 0, 0, 0] fieldRpm16
    (by decide) (by decide) (by decide)).1 rfl

end Canbox

namespace Canbox

/-- Truncating division by a positive divisor is monotone in the
numerator. -/
theorem tdiv_le_tdiv_of_le {a b d : Int} (hd : 0 < d) (h : a ≤ b) :
    a.tdiv d ≤ b.tdiv d := by
  rcases le_or_lt 0 a with ha | ha
  · have hb : 0 ≤ b := le_trans ha h
    rw [Int.tdiv_eq_ediv ha hd.le, Int.tdiv_eq_ediv hb hd.le]
    exact Int.ediv_le_ediv hd h
  · rcases le_or_lt 0 b with hb | hb
    · have h1 : 0 ≤ (-a).tdiv d := Int.tdiv_nonneg (by omega) hd.le
      have h2 : (-a).tdiv d = -a.tdiv d := Int.neg_tdiv a d
      have h3 : 0 ≤ b.tdiv d := Int.tdiv_nonneg hb hd.le
      omega
    · have key : (-b).tdiv d ≤ (-a).tdiv d := by
        rw [Int.tdiv_eq_ediv (by omega) hd.le, Int.tdiv_eq_ediv (by omega) hd.le]
        exact Int.ediv_le_ediv hd (by omega)
      have h2 : (-a).tdiv d = -a.tdiv d := Int.neg_tdiv a d
      have h3 : (-b).tdiv d = -b.tdiv d := Int.neg_tdiv b d
      omega

/-- Truncating division by a negative divisor is antitone in the
numerator. -/
theorem tdiv_le_tdiv_of_le_neg {a b d : Int} (hd : d < 0) (h : a ≤ b) :
    b.tdiv d ≤ a.tdiv d := by
  have h1 : a.tdiv d = -a.tdiv (-d) := by
    rw [← Int.tdiv_neg, neg_neg]
  have h2 : b.tdiv d = -b.tdiv (-d) := by
    rw [← Int.tdiv_neg, neg_neg]
  have h3 : a.tdiv (-d) ≤ b.tdiv (-d) := tdiv_le_tdiv_of_le (by omega) h
  omega

end Canbox

namespace Canbox

/-- C3 counterexample: SCALE with multiplier 0, divisor 1, offset 0 should
by the claim return trunc(raw * 0 / 1) + 0 = 0, but applyFormula replaces
the zero multiplier by 1 and returns the raw value: at raw = 5 the code
yields 5, not 0. -/
theorem scale_zero_mult_not_identity :
    applyFormula 5 scaleZeroMultField ≠ ((5 : Int) * 0).tdiv 1 + 0 := by decide

/-- C3 (amended): for every SCALE field with nonzero multiplier and nonzero
divisor, the converted value is trunc(raw * mult / div) + offset with C
truncating division; in particular raw 17534 under SCALE(1, 7, 0) converts
to exactly 2504. -/
theorem scale_formula_truncating :
    (∀ (raw : Int) (f : FieldConfig), f.formula = FormulaType.SCALE →
      f.p0 ≠ 0 → f.p1 ≠ 0 →
      applyFormula raw f = (raw * f.p0).tdiv f.p1 + f.p2)
    ∧ applyFormula 17534 scaleRpmField = 2504 := by
  constructor
  · intro raw f hf h0 h1
    simp [applyFormula, hf, h0, h1]
  · decide

/-- C3 witness: the amended SCALE semantics evaluated on the RPM scenario
field (mult 1, div 7, offset 0) at raw 17534, giving 2504. -/
theorem scale_formula_truncating_witness :
    applyFormula 17534 scaleRpmField = ((17534 : Int) * 1).tdiv 7 + 0 :=
  scale_formula_truncating.1 17534 scaleRpmField rfl (by decide) (by decide)

/-- C4 counterexample: RangeMap(10, 0, 10, 0) has inMin > inMax but is the
identity map on raw values, hence increasing, not decreasing:
map(0) = 0 < 10 = map(10). -/
theorem rangemap_inverted_not_decreasing :
    arduinoMap 0 10 0 10 0 < arduinoMap 10 10 0 10 0 := by decide

/-- C4 (amended): for inMin different from inMax, the MAP_RANGE conversion
maps inMin to exactly outMin and inMax to exactly outMax; it is weakly
monotone: nondecreasing when (outMax - outMin) * (inMax - inMin) is
nonnegative and nonincreasing when that product is nonpositive (so with
inMin > inMax and outMin < outMax it is nonincreasing, an inverted map);
and RangeMap(255, 0, 0, 45) maps 0xFF to 0, 0x00 to 45 and 0x80 to
exactly 22. -/
theorem rangemap_endpoints_monotone :
    (∀ inMin inMax outMin outMax : Int, inMin ≠ inMax →
      arduinoMap inMin inMin inMax outMin outMax = outMin
      ∧ arduinoMap inMax inMin inMax outMin outMax = outMax)
    ∧ (∀ inMin inMax outMin outMax x y : Int, x ≤ y →
        0 ≤ (outMax - outMin) * (inMax - inMin) →
        arduinoMap x inMin inMax outMin outMax
          ≤ arduinoMap y inMin inMax outMin outMax)
    ∧ (∀ inMin inMax outMin outMax x y : Int, x ≤ y →
        (outMax - outMin) * (inMax - inMin) ≤ 0 →
        arduinoMap y inMin inMax outMin outMax
          ≤ arduinoMap x inMin inMax outMin outMax)
    ∧ (arduinoMap 0xFF 255 0 0 45 = 0 ∧ arduinoMap 0x00 255 0 0 45 = 45
       ∧ arduinoMap 0x80 255 0 0 45 = 22) := by
  refine ⟨?_, ?_, ?_, by decide, by decide, by decide⟩
  · intro inMin inMax outMin outMax hne
    constructor
    · simp [arduinoMap, Int.zero_tdiv]
    · have hd : inMax - inMin ≠ 0 := by omega
      unfold arduinoMap
      rw [Int.mul_tdiv_cancel_left _ hd]
      omega
  · intro inMin inMax outMin outMax x y hxy hprod
    unfold arduinoMap
    rcases lt_trichotomy (inMax - inMin) 0 with hd | hd | hd
    · have hk : outMax - outMin ≤ 0 := by nlinarith
      have hnum : (y - inMin) * (outMax - outMin) ≤ (x - inMin) * (outMax - outMin) :=
        mul_le_mul_of_nonpos_right (by omega) hk
      have := tdiv_le_tdiv_of_le_neg hd hnum
      omega
    · simp [hd, Int.tdiv_zero]
    · have hk : 0 ≤ outMax - outMin := by nlinarith
      have hnum : (x - inMin) * (outMax - outMin) ≤ (y - inMin) * (outMax - outMin) :=
        mul_le_mul_of_nonneg_right (by omega) hk
      have := tdiv_le_tdiv_of_le hd hnum
      omega
  · intro inMin inMax outMin outMax x y hxy hprod
    unfold arduinoMap
    rcases lt_trichotomy (inMax - inMin) 0 with hd | hd | hd
    · have hk : 0 ≤ outMax - outMin := by nlinarith
      have hnum : (x - inMin) * (outMax - outMin) ≤ (y - inMin) * (outMax - outMin) :=
        mul_le_mul_of_nonneg_right (by omega) hk
      have := tdiv_le_tdiv_of_le_neg hd hnum
      omega
    · simp [hd, Int.tdiv_zero]
    · have hk : outMax - outMin ≤ 0 := by nlinarith
      have hnum : (y - inMin) * (outMax - outMin) ≤ (x - inMin) * (outMax - outMin) :=
        mul_le_mul_of_nonpos_right (by omega) hk
      have := tdiv_le_tdiv_of_le hd hnum
      omega

/-- C4 witness: the amended RangeMap properties evaluated at concrete
inputs: the endpoints of the fuel map, a nondecreasing instance and a
nonincreasing instance. -/
theorem rangemap_endpoints_monotone_witness :
    (arduinoMap 255 255 0 0 45 = 0 ∧ arduinoMap 0 255 0 0 45 = 45)
    ∧ arduinoMap 3 0 10 0 100 ≤ arduinoMap 7 0 10 0 100
    ∧ arduinoMap 7 255 0 0 45 ≤ arduinoMap 3 255 0 0 45 :=
  ⟨rangemap_endpoints_monotone.1 255 0 0 45 (by decide),
   rangemap_endpoints_monotone.2.1 0 10 0 100 3 7 (by decide) (by decide),
   rangemap_endpoints_monotone.2.2.1 255 0 0 45 3 7 (by decide) (by decide)⟩

end Canbox

namespace Canbox

/-- C5 counterexample: a matched frame whose declared length (2) is shorter
than a field span (bytes 0-3) does NOT have that field skipped with the
state left unmodified: processing writes the extracted value into the
ENGINE_RPM target. -/
theorem short_frame_field_still_written :
    (processFrame 0 procStateW GlobalState.init shortRpmFrame).2.1.engineRPM ≠
      GlobalState.init.engineRPM := by decide

/-- C5 (amended): processFrame never consults the declared frame length:
its result is identical for any two declared lengths; in the short-frame
scenario the out-of-span field is still extracted from the fixed 8-byte
buffer and written (engineRPM becomes 0x1234), the processed counter is
incremented and the unknown-frame counter (the only fault counter that
exists) is unchanged. -/
theorem process_frame_ignores_declared_length :
    (∀ (now : Nat) (p : ProcState) (g : GlobalState) (id d1 d2 : Nat)
      (data : List Nat),
      processFrame now p g { identifier := id, dlc := d1, data := data }
        = processFrame now p g { identifier := id, dlc := d2, data := data })
    ∧ (processFrame 0 procStateW GlobalState.init shortRpmFrame).2.1.engineRPM = 0x1234
    ∧ (processFrame 0 procStateW GlobalState.init shortRpmFrame).1.framesProcessed = 1
    ∧ (processFrame 0 procStateW GlobalState.init shortRpmFrame).1.unknownFrames = 0 := by
  exact ⟨fun now p g id d1 d2 data => rfl, by decide, by decide, by decide⟩

/-- C6 counterexample: the document with unknown tokens, a zero divisor and
an out-of-range byte span is accepted: the load reports success and the
previously installed profile is replaced. -/
theorem malformed_schema_accepted :
    (loadFromJson (some badDoc) prevProfile).2 = true
    ∧ (loadFromJson (some badDoc) prevProfile).1 ≠ prevProfile := by
  exact ⟨by decide, by decide⟩

/-- C6 (amended): loadFromJson rejects only unparseable documents and
documents yielding no frames: a parse failure returns the previous profile
untouched; every parsed document with a nonempty frames list is accepted
and installed; an unknown formula token silently falls back to NONE; and a
zero SCALE divisor is accepted at load time and treated as divisor 1 when
the formula is applied. -/
theorem schema_load_behavior :
    (∀ prev : VehicleProfile, loadFromJson none prev = (prev, false))
    ∧ (∀ (d : JsonDoc) (prev : VehicleProfile), d.frames ≠ [] →
        (loadFromJson (some d) prev).2 = true)
    ∧ (∀ s : String, s ≠ "NONE" → s ≠ "SCALE" → s ≠ "MAP_RANGE" →
        s ≠ "BITMASK_EXTRACT" → parseFormulaType s = FormulaType.NONE)
    ∧ (∀ (raw : Int) (f : FieldConfig), f.formula = FormulaType.SCALE →
        f.p1 = 0 → f.p0 ≠ 0 →
        applyFormula raw f = (raw * f.p0).tdiv 1 + f.p2) := by
  refine ⟨fun prev => rfl, ?_, ?_, ?_⟩
  · intro d prev hne
    simp [loadFromJson, List.length_pos, hne]
  · intro s h1 h2 h3 h4
    simp [parseFormulaType, h1, h2, h3, h4]
  · intro raw f hf h1 h0
    simp [applyFormula, hf, h1, h0]

/-- C6 witness: the amended load behaviour evaluated concretely: the bad
document is accepted, the unknown token WIBBLE parses to NONE, and a
zero-divisor SCALE field divides by 1. -/
theorem schema_load_behavior_witness :
    (loadFromJson (some badDoc) prevProfile).2 = true
    ∧ parseFormulaType "WIBBLE" = FormulaType.NONE
    ∧ applyFormula 5 scaleZeroDivField = ((5 : Int) * 1).tdiv 1 + 0 :=
  ⟨schema_load_behavior.2.1 badDoc prevProfile (by decide),
   schema_load_behavior.2.2.1 "WIBBLE" (by decide) (by decide) (by decide) (by decide),
   schema_load_behavior.2.2.2 5 scaleZeroDivField rfl rfl (by decide)⟩

end Canbox

namespace Canbox

/-- A write to any target other than ENGINE_RPM leaves engineRPM alone. -/
theorem write_preserves_rpm (now : Nat) (t : OutputField) (v : Int)
    (s : GlobalState) (h : t ≠ OutputField.ENGINE_RPM) :
    (writeToGlobalData now t v s).engineRPM = s.engineRPM := by
  cases t <;> simp only [writeToGlobalData] <;>
    first
      | rfl
      | (split <;> rfl)
      | exact absurd rfl h

/-- The per-field fold of processFrame preserves engineRPM when no field
targets ENGINE_RPM. -/
theorem fold_preserves_rpm (now : Nat) (data : List Nat) :
    ∀ (fields : List FieldConfig) (g : GlobalState),
      (∀ f ∈ fields, f.target ≠ OutputField.ENGINE_RPM) →
      (fields.foldl (fun acc f =>
        writeToGlobalData now f.target
          (applyFormula (extractRawValue data f) f) acc) g).engineRPM
        = g.engineRPM := by
  intro fields
  induction fields with
  | nil => intro g _; rfl
  | cons f t ih =>
      intro g hall
      simp only [List.foldl_cons]
      rw [ih _ (fun x hx => hall x (List.mem_cons_of_mem f hx))]
      exact write_preserves_rpm now f.target _ g (hall f (List.mem_cons_self f t))

/-- processFrame preserves engineRPM when the installed profile never
targets ENGINE_RPM, and it never changes the installed profile. -/
theorem processFrame_preserves_rpm (now : Nat) (p : ProcState)
    (g : GlobalState) (frame : CanFrame)
    (h : ∀ fc ∈ p.profile.frames, ∀ f ∈ fc.fields,
      f.target ≠ OutputField.ENGINE_RPM) :
    (processFrame now p g frame).2.1.engineRPM = g.engineRPM
    ∧ (processFrame now p g frame).1.profile = p.profile := by
  unfold processFrame
  cases hf : findFrameConfig p.profile frame.identifier with
  | none => exact ⟨rfl, rfl⟩
  | some cfg =>
      have hmem : cfg ∈ p.profile.frames := by
        have := List.mem_of_find?_eq_some hf
        exact this
      exact ⟨fold_preserves_rpm now frame.data cfg.fields g (h cfg hmem), rfl⟩

/-- Iterated processing preserves engineRPM when the installed profile
never targets ENGINE_RPM. -/
theorem processFrames_preserves_rpm (now : Nat) :
    ∀ (frames : List CanFrame) (p : ProcState) (g : GlobalState),
      (∀ fc ∈ p.profile.frames, ∀ f ∈ fc.fields,
        f.target ≠ OutputField.ENGINE_RPM) →
      (processFrames now p g frames).2.engineRPM = g.engineRPM := by
  intro frames
  induction frames with
  | nil => intro p g _; rfl
  | cons fr t ih =>
      intro p g h
      have hstep := processFrame_preserves_rpm now p g fr h
      have hrec := ih (processFrame now p g fr).1 (processFrame now p g fr).2.1
        (by rw [hstep.2]; exact h)
      simp only [processFrames, List.foldl_cons] at hrec ⊢
      rw [hrec, hstep.1]

end Canbox

namespace Canbox

/-- C7: a successful canLoad of a profile none of whose fields target
ENGINE_RPM resets the vehicle state to defaults, so after processing any
list of frames under the new profile, engineRPM reads its default 0 rather
than the previous profile decoded value.  (resetVehicleData is modelled
from the spec; its definition is absent from the provided sources.) -/
theorem profile_switch_resets_rpm :
    ∀ (doc : Option JsonDoc) (p : ProcState) (g : GlobalState)
      (now : Nat) (frames : List CanFrame),
      (loadFromJson doc p.profile).2 = true →
      (∀ fc ∈ (loadFromJson doc p.profile).1.frames, ∀ f ∈ fc.fields,
        f.target ≠ OutputField.ENGINE_RPM) →
      (processFrames now (canLoad doc p g).1 (canLoad doc p g).2 frames).2.engineRPM
        = 0 := by
  intro doc p g now frames hok hno
  have hcl : canLoad doc p g
      = ({ p with profile := (loadFromJson doc p.profile).1 }, GlobalState.init) := by
    simp [canLoad, hok, resetVehicleData]
  rw [hcl]
  exact processFrames_preserves_rpm now frames _ GlobalState.init hno

/-- C7 witness: switching from an RPM-decoding profile (with stale
engineRPM 3000) to the speed-only profile and processing a 0x284 speed
frame leaves engineRPM at the default 0. -/
theorem profile_switch_resets_rpm_witness :
    (processFrames 7 (canLoad (some goodDoc) procBefore gBefore).1
      (canLoad (some goodDoc) procBefore gBefore).2
      [{ identifier := 0x284, dlc := 8, data := [0, 100, 0, 0, 0, 0, 0, 0] }]).2.engineRPM
      = 0 :=
  profile_switch_resets_rpm (some goodDoc) procBefore gBefore 7
    [{ identifier := 0x284, dlc := 8, data := [0, 100, 0, 0, 0, 0, 0, 0] }]
    (by decide) (by decide)

end Canbox

namespace Canbox

/-- C8: scheduler dispatch: a periodic kind (steering, 200 ms) fires
whenever its interval has elapsed; the on-change-with-floor door kind
(250 ms) fires whenever its floor has elapsed, and fires immediately when
the candidate byte differs from the last transmitted one regardless of the
floor timer; with an unchanged payload and the static initial state it
fires at t = 0 (first-send, lastSentDoors starts at the impossible 0xFF),
250 and 500. -/
theorem scheduler_dispatch_policy :
    (∀ now last : Nat, 200 ≤ wsub now last → (steeringTick now last).2 = true)
    ∧ (∀ (now ds : Nat) (st : DoorSched), 250 ≤ wsub now st.lastDoorTime →
        (doorTick now ds st).2 = true)
    ∧ (∀ (now ds : Nat) (st : DoorSched), ds ≠ st.lastSentDoors →
        (doorTick now ds st).2 = true)
    ∧ (doorTick 0 0 doorSchedInit
        = ({ lastSentDoors := 0, lastDoorTime := 0 }, true)
       ∧ doorTick 250 0 { lastSentDoors := 0, lastDoorTime := 0 }
          = ({ lastSentDoors := 0, lastDoorTime := 250 }, true)
       ∧ doorTick 500 0 { lastSentDoors := 0, lastDoorTime := 250 }
          = ({ lastSentDoors := 0, lastDoorTime := 500 }, true)) := by
  refine ⟨?_, ?_, ?_, by decide, by decide, by decide⟩
  · intro now last h
    unfold steeringTick
    rw [if_pos h]
  · intro now ds st h
    unfold doorTick
    rw [if_pos (Or.inr h)]
  · intro now ds st h
    unfold doorTick
    rw [if_pos (Or.inl h)]

/-- C8 witness: the dispatch policy evaluated concretely: the steering kind
fires at elapsed 200, the door kind fires on floor expiry at elapsed 300,
and an on-change door payload fires at t = 37 with a floor timer of only
37 ms. -/
theorem scheduler_dispatch_policy_witness :
    (steeringTick 200 0).2 = true
    ∧ (doorTick 400 0 { lastSentDoors := 0, lastDoorTime := 100 }).2 = true
    ∧ (doorTick 37 0x80 { lastSentDoors := 0, lastDoorTime := 0 }).2 = true :=
  ⟨scheduler_dispatch_policy.1 200 0 (by decide),
   scheduler_dispatch_policy.2.1 400 0 { lastSentDoors := 0, lastDoorTime := 100 }
     (by decide),
   scheduler_dispatch_policy.2.2.1 37 0x80 { lastSentDoors := 0, lastDoorTime := 0 }
     (by decide)⟩

end Canbox

namespace Canbox

/-- C9: per-target write policy: every door target sets (on truthy values)
or clears (on zero) exactly its own bit of the packed door bitmask and
leaves the other bits of the byte unchanged; two writes for door-driver and
door-boot, both true, set exactly bits 7 and 3 and leave bits 6, 5, 4
unchanged; indicator targets, when true, only stamp the corresponding
activity timestamp; the remaining boolean targets overwrite their variable
directly. -/
theorem write_policy_targets :
    (∀ t b, (t, b) ∈ [(OutputField.DOOR_DRIVER, 7), (OutputField.DOOR_PASSENGER, 6),
        (OutputField.DOOR_REAR_LEFT, 5), (OutputField.DOOR_REAR_RIGHT, 4),
        (OutputField.DOOR_BOOT, 3)] →
      ∀ (now : Nat) (v : Int) (s : GlobalState),
        (v ≠ 0 → (writeToGlobalData now t v s).currentDoors.testBit b = true)
        ∧ (v = 0 → (writeToGlobalData now t v s).currentDoors.testBit b = false)
        ∧ (∀ i, i < 8 → i ≠ b →
            (writeToGlobalData now t v s).currentDoors.testBit i
              = s.currentDoors.testBit i))
    ∧ (∀ (now : Nat) (s : GlobalState),
        ((writeToGlobalData now OutputField.DOOR_BOOT 1
            (writeToGlobalData now OutputField.DOOR_DRIVER 1 s)).currentDoors.testBit 7
          = true)
        ∧ ((writeToGlobalData now OutputField.DOOR_BOOT 1
            (writeToGlobalData now OutputField.DOOR_DRIVER 1 s)).currentDoors.testBit 3
          = true)
        ∧ (∀ i, i = 6 ∨ i = 5 ∨ i = 4 →
            (writeToGlobalData now OutputField.DOOR_BOOT 1
              (writeToGlobalData now OutputField.DOOR_DRIVER 1 s)).currentDoors.testBit i
              = s.currentDoors.testBit i))
    ∧ (∀ (now : Nat) (v : Int) (s : GlobalState), v ≠ 0 →
        writeToGlobalData now OutputField.INDICATOR_LEFT v s
          = { s with lastLeftIndicatorTime := now })
    ∧ (∀ (now : Nat) (v : Int) (s : GlobalState), v ≠ 0 →
        writeToGlobalData now OutputField.INDICATOR_RIGHT v s
          = { s with lastRightIndicatorTime := now })
    ∧ (∀ (now : Nat) (v : Int) (s : GlobalState),
        writeToGlobalData now OutputField.HEADLIGHTS v s
          = { s with headlightsOn := v ≠ 0 }
        ∧ writeToGlobalData now OutputField.HIGH_BEAM v s
          = { s with highBeamOn := v ≠ 0 }
        ∧ writeToGlobalData now OutputField.PARKING_LIGHTS v s
          = { s with parkingLightsOn := v ≠ 0 }) := by
  refine ⟨?_, ?_, ?_, ?_, ?_⟩
  · intro t b h
    simp only [List.mem_cons, List.not_mem_nil, or_false, Prod.mk.injEq] at h
    rcases h with ⟨rfl, rfl⟩ | ⟨rfl, rfl⟩ | ⟨rfl, rfl⟩ | ⟨rfl, rfl⟩ | ⟨rfl, rfl⟩ <;>
      intro now v s <;>
      refine ⟨fun hv => ?_, fun hv => ?_, fun i hi hib => ?_⟩
    · simp [writeToGlobalData, hv, Nat.testBit_lor,
        show Nat.testBit 128 7 = true from by decide]
    · simp [writeToGlobalData, hv, Nat.testBit_land,
        show Nat.testBit 127 7 = false from by decide]
    · have h12 : ∀ j, j < 8 → j ≠ 7 →
          Nat.testBit 128 j = false ∧ Nat.testBit 127 j = true := by decide
      have h1 := (h12 i hi hib).1
      have h2 := (h12 i hi hib).2
      rcases eq_or_ne v 0 with hv | hv
      · simp [writeToGlobalData, hv, Nat.testBit_land, h2]
      · simp [writeToGlobalData, hv, Nat.testBit_lor, h1]
    · simp [writeToGlobalData, hv, Nat.testBit_lor,
        show Nat.testBit 64 6 = true from by decide]
    · simp [writeToGlobalData, hv, Nat.testBit_land,
        show Nat.testBit 191 6 = false from by decide]
    · have h12 : ∀ j, j < 8 → j ≠ 6 →
          Nat.testBit 64 j = false ∧ Nat.testBit 191 j = true := by decide
      have h1 := (h12 i hi hib).1
      have h2 := (h12 i hi hib).2
      rcases eq_or_ne v 0 with hv | hv
      · simp [writeToGlobalData, hv, Nat.testBit_land, h2]
      · simp [writeToGlobalData, hv, Nat.testBit_lor, h1]
    · simp [writeToGlobalData, hv, Nat.testBit_lor,
        show Nat.testBit 32 5 = true from by decide]
    · simp [writeToGlobalData, hv, Nat.testBit_land,
        show Nat.testBit 223 5 = false from by decide]
    · have h12 : ∀ j, j < 8 → j ≠ 5 →
          Nat.testBit 32 j = false ∧ Nat.testBit 223 j = true := by decide
      have h1 := (h12 i hi hib).1
      have h2 := (h12 i hi hib).2
      rcases eq_or_ne v 0 with hv | hv
      · simp [writeToGlobalData, hv, Nat.testBit_land, h2]
      · simp [writeToGlobalData, hv, Nat.testBit_lor, h1]
    · simp [writeToGlobalData, hv, Nat.testBit_lor,
        show Nat.testBit 16 4 = true from by decide]
    · simp [writeToGlobalData, hv, Nat.testBit_land,
        show Nat.testBit 239 4 = false from by decide]
    · have h12 : ∀ j, j < 8 → j ≠ 4 →
          Nat.testBit 16 j = false ∧ Nat.testBit 239 j = true := by decide
      have h1 := (h12 i hi hib).1
      have h2 := (h12 i hi hib).2
      rcases eq_or_ne v 0 with hv | hv
      · simp [writeToGlobalData, hv, Nat.testBit_land, h2]
      · simp [writeToGlobalData, hv, Nat.testBit_lor, h1]
    · simp [writeToGlobalData, hv, Nat.testBit_lor,
        show Nat.testBit 8 3 = true from by decide]
    · simp [writeToGlobalData, hv, Nat.testBit_land,
        show Nat.testBit 247 3 = false from by decide]
    · have h12 : ∀ j, j < 8 → j ≠ 3 →
          Nat.testBit 8 j = false ∧ Nat.testBit 247 j = true := by decide
      have h1 := (h12 i hi hib).1
      have h2 := (h12 i hi hib).2
      rcases eq_or_ne v 0 with hv | hv
      · simp [writeToGlobalData, hv, Nat.testBit_land, h2]
      · simp [writeToGlobalData, hv, Nat.testBit_lor, h1]
  · intro now s
    have e : writeToGlobalData now OutputField.DOOR_BOOT 1
        (writeToGlobalData now OutputField.DOOR_DRIVER 1 s)
        = { s with currentDoors := (s.currentDoors ||| 128) ||| 8 } := by
      simp [writeToGlobalData]
    rw [e]
    refine ⟨?_, ?_, ?_⟩
    · simp [Nat.testBit_lor, show Nat.testBit 128 7 = true from by decide]
    · simp [Nat.testBit_lor, show Nat.testBit 8 3 = true from by decide]
    · intro i hi
      rcases hi with rfl | rfl | rfl
      · simp [Nat.testBit_lor, show Nat.testBit 128 6 = false from by decide,
          show Nat.testBit 8 6 = false from by decide]
      · simp [Nat.testBit_lor, show Nat.testBit 128 5 = false from by decide,
          show Nat.testBit 8 5 = false from by decide]
      · simp [Nat.testBit_lor, show Nat.testBit 128 4 = false from by decide,
          show Nat.testBit 8 4 = false from by decide]
  · intro now v s hv
    simp [writeToGlobalData, hv]
  · intro now v s hv
    simp [writeToGlobalData, hv]
  · intro now v s
    exact ⟨rfl, rfl, rfl⟩

/-- C9 witness: the write policy evaluated concretely: a truthy driver-door
write sets bit 7, and a truthy left-indicator write stamps only the
timestamp. -/
theorem write_policy_targets_witness :
    ((writeToGlobalData 5 OutputField.DOOR_DRIVER 1 GlobalState.init).currentDoors.testBit 7
      = true)
    ∧ writeToGlobalData 5 OutputField.INDICATOR_LEFT 1 GlobalState.init
        = { GlobalState.init with lastLeftIndicatorTime := 5 } :=
  ⟨(write_policy_targets.1 OutputField.DOOR_DRIVER 7 (by decide) 5 1 GlobalState.init).1
      (by decide),
   write_policy_targets.2.2.1 5 1 GlobalState.init (by decide)⟩

end Canbox

namespace Canbox

/-- testBit of a mask guarded by a condition. -/
theorem testBit_ite_zero (c : Prop) [inst : Decidable c] (m k : Nat) :
    (if c then m else 0).testBit k = (decide c && m.testBit k) := by
  split <;> simp_all

/-- Bit 0 never carries bit i of 248. -/
theorem one_and_248_bits (i : Nat) :
    Nat.testBit 1 i = true → Nat.testBit 248 i = false := by
  cases i with
  | zero => intro _; decide
  | succ n =>
      intro hj
      exact absurd hj (by simp [Nat.testBit_succ])

/-- The low bit of a Nat as an AND with 1. -/
theorem and_one_eq_testBit (d : Nat) : d &&& 1 = (d.testBit 0).toNat := by
  simpa using Nat.and_two_pow d 0

end Canbox

namespace Canbox

/-- C10: the hardcoded 0x60D body-control decoder preserves bit 0 of
currentDoors (the undocumented handbrake flag) while rewriting the five
door bits purely from the frame (independent of the previous door state);
the VW-protocol encoders read that bit back: the door/handbrake status byte
carries it in bit 5 and the dashboard status byte in bit 0. -/
theorem handbrake_bit_preserved :
    (∀ (cfg : CaptureConfig) (now : Nat) (frame : CanFrame) (s : GlobalState),
      frame.identifier = 0x60D →
        ((handleCanCapture cfg now frame s).currentDoors.testBit 0
            = s.currentDoors.testBit 0)
        ∧ (∀ s2 : GlobalState,
            (handleCanCapture cfg now frame s).currentDoors &&& 0xF8
              = (handleCanCapture cfg now frame s2).currentDoors &&& 0xF8))
    ∧ (∀ doors : Nat, (vwDoorStatusByte doors).testBit 5 = doors.testBit 0)
    ∧ (∀ doors : Nat, (vwDashStatusByte doors).testBit 0 = doors.testBit 0) := by
  refine ⟨?_, ?_, ?_⟩
  · intro cfg now frame s hid
    have hred : ∀ g : GlobalState, handleCanCapture cfg now frame g =
        (let st := frame.data.getD 0 0 * 65536 + frame.data.getD 1 0 * 256 +
          frame.data.getD 2 0
         { g with
            highBeamOn := st &&& 2048 ≠ 0
            headlightsOn := st &&& 131072 ≠ 0
            parkingLightsOn := st &&& 262144 ≠ 0
            lastLeftIndicatorTime :=
              if st &&& 8192 ≠ 0 then now else g.lastLeftIndicatorTime
            lastRightIndicatorTime :=
              if st &&& 16384 ≠ 0 then now else g.lastRightIndicatorTime
            currentDoors := (g.currentDoors &&& 1)
              ||| (if st &&& 1048576 ≠ 0 then 128 else 0)
              ||| (if st &&& 524288 ≠ 0 then 64 else 0)
              ||| (if st &&& 2097152 ≠ 0 then 32 else 0)
              ||| (if st &&& 4194304 ≠ 0 then 16 else 0)
              ||| (if st &&& 8388608 ≠ 0 then 8 else 0) }) := by
      intro g
      unfold handleCanCapture
      rw [hid]
      rw [if_neg (by decide), if_neg (by decide), if_neg (by decide),
          if_neg (by decide), if_neg (by decide), if_neg (by decide), if_pos rfl]
    constructor
    · rw [hred s]
      simp only [Nat.testBit_lor, Nat.testBit_land, testBit_ite_zero]
      simp [show Nat.testBit 1 0 = true from by decide,
        show Nat.testBit 128 0 = false from by decide,
        show Nat.testBit 64 0 = false from by decide,
        show Nat.testBit 32 0 = false from by decide,
        show Nat.testBit 16 0 = false from by decide,
        show Nat.testBit 8 0 = false from by decide]
    · intro s2
      rw [hred s, hred s2]
      apply Nat.eq_of_testBit_eq
      intro i
      simp only [Nat.testBit_land, Nat.testBit_lor, testBit_ite_zero]
      cases h1 : Nat.testBit 1 i <;> cases h8 : Nat.testBit 248 i <;>
        simp_all [one_and_248_bits]
  · intro doors
    unfold vwDoorStatusByte
    simp only [Nat.testBit_lor, testBit_ite_zero]
    cases hb : doors.testBit 0
    · have h0 : doors &&& 1 = 0 := by rw [and_one_eq_testBit, hb]; rfl
      simp [h0, hb,
        show Nat.testBit 1 5 = false from by decide,
        show Nat.testBit 2 5 = false from by decide,
        show Nat.testBit 4 5 = false from by decide,
        show Nat.testBit 8 5 = false from by decide,
        show Nat.testBit 16 5 = false from by decide]
    · have h0 : doors &&& 1 = 1 := by rw [and_one_eq_testBit, hb]; rfl
      simp [h0, hb,
        show Nat.testBit 1 5 = false from by decide,
        show Nat.testBit 2 5 = false from by decide,
        show Nat.testBit 4 5 = false from by decide,
        show Nat.testBit 8 5 = false from by decide,
        show Nat.testBit 16 5 = false from by decide,
        show Nat.testBit 32 5 = true from by decide]
  · intro doors
    unfold vwDashStatusByte
    cases hb : doors.testBit 0
    · have h0 : doors &&& 1 = 0 := by rw [and_one_eq_testBit, hb]; rfl
      rw [if_neg (by omega)]
      decide
    · have h0 : doors &&& 1 = 1 := by rw [and_one_eq_testBit, hb]; rfl
      rw [if_pos (by omega)]
      decide

/-- C10 witness: a concrete 0x60D frame processed with the handbrake flag
set: bit 0 survives the door rewrite, and the VW encoders expose it. -/
theorem handbrake_bit_preserved_witness :
    ((handleCanCapture cfgF15 0 frame60D gHandbrake).currentDoors.testBit 0
        = gHandbrake.currentDoors.testBit 0)
    ∧ (vwDoorStatusByte 1).testBit 5 = (1 : Nat).testBit 0 :=
  ⟨(handbrake_bit_preserved.1 cfgF15 0 frame60D gHandbrake rfl).1,
   handbrake_bit_preserved.2.1 1⟩

end Canbox
